import Mathlib

/-! tsimd type traits: storage, cast, half-width and mask-kind resolution

A shallow embedding of `tsimd/detail/tsimd_traits.h`.  The header is a set of
class templates whose explicit specialisations are selected by the pair
`(T, W)` and whose bodies are chosen by preprocessor conditionals on the
compiler's vector-extension macros.  Here

* a C++ type is a value of `CType`;
* a template `X<T, W>::type` is a function `X : Macros → CType → Int → CType`
  whose `match` lists the explicit specialisations in source order and whose
  last arm is the primary template;
* the predefined macros are the four Boolean fields of `Macros`.
-/

namespace tsimd
namespace traits

/-! ## Data model -/

/-- The C++ types named in the header: the sentinel `undefined_type`, the
scalar types, built-in arrays `T[N]`, and the x86 vector and mask register
types.  `bool32_t` and `bool64_t` come from `bool_t.h`; the header gives each
of them explicit specialisations next to those of `float`, `int`, `double` and
`long long`, so they are types distinct from these and from each other. -/
inductive CType where
  | undefined_type
  | float
  | int
  | bool32_t
  | double
  | long_long
  | bool64_t
  | short
  | array (elem : CType) (n : Nat)
  | __m128
  | __m128i
  | __m256
  | __m256d
  | __m256i
  | __m512
  | __m512i
  | __mmask8
  | __mmask32
deriving DecidableEq, Repr

/-- Which of the vector-extension macros tested by the header are defined in
the translation unit. -/
structure Macros where
  __SSE__ : Bool
  __AVX__ : Bool
  __AVX2__ : Bool
  __AVX512F__ : Bool
deriving DecidableEq, Repr

/-! ## The traits of the header -/

/-- Embeds `valid_type_for_pack<T>::value`. -/
def valid_type_for_pack (T : CType) : Bool :=
  T = .float || T = .int || T = .bool32_t ||
  T = .double || T = .long_long || T = .bool64_t

/-- Embeds `is_bool<T>::value`. -/
def is_bool (T : CType) : Bool :=
  T = .bool32_t || T = .bool64_t

/-- Embeds `simd_type<T, W>::type`.  The local names stand for the
specialisations that later specialisations alias (`simd_type<float, 1>::type`
and so on).  The `#if 0` branch of `simd_type<bool32_t, 4>` is dead code, so
only its `#else` branch appears. -/
def simd_type (m : Macros) (T : CType) (W : Int) : CType :=
  let float_1 : CType := .float
  let double_1 : CType := .double
  let float_4 : CType := if m.__SSE__ then .__m128 else .array .float 4
  let double_4 : CType :=
    if m.__AVX512F__ || m.__AVX2__ || m.__AVX__ then .__m256d else .array .double 4
  let float_8 : CType :=
    if m.__AVX512F__ || m.__AVX2__ || m.__AVX__ then .__m256 else .array .float 8
  match T, W with
  -- 1-wide
  | .float, 1 => float_1
  | .int, 1 => .int
  | .bool32_t, 1 => float_1
  | .double, 1 => double_1
  | .long_long, 1 => .long_long
  | .bool64_t, 1 => double_1
  -- 4-wide
  | .float, 4 => float_4
  | .int, 4 => if m.__SSE__ then .__m128i else .array .int 4
  | .bool32_t, 4 => float_4
  | .double, 4 => double_4
  | .long_long, 4 =>
      if m.__AVX512F__ || m.__AVX2__ then .__m256i else .array .long_long 4
  | .bool64_t, 4 => double_4
  -- 8-wide
  | .float, 8 => float_8
  | .int, 8 =>
      if m.__AVX512F__ || m.__AVX2__ || m.__AVX__ then .__m256i else .array .int 8
  | .bool32_t, 8 => float_8
  -- 16-wide
  | .float, 16 => if m.__AVX512F__ then .__m512 else .array .float 16
  | .int, 16 => if m.__AVX512F__ then .__m512i else .array .int 16
  | .bool32_t, 16 => if m.__AVX512F__ then .__mmask32 else .array .int 16
  -- primary template
  | _, _ => .undefined_type

/-- Embeds `cast_simd_type<T, W>::type`. -/
def cast_simd_type (m : Macros) (T : CType) (W : Int) : CType :=
  match T, W with
  -- 1-wide
  | .float, 1 => simd_type m .int 1
  | .int, 1 => simd_type m .float 1
  | .double, 1 => simd_type m .long_long 1
  | .long_long, 1 => simd_type m .double 1
  -- 4-wide
  | .float, 4 => simd_type m .int 4
  | .int, 4 => simd_type m .float 4
  | .bool32_t, 4 => simd_type m .int 4
  -- 8-wide
  | .float, 8 => simd_type m .int 8
  | .int, 8 => simd_type m .float 8
  -- 16-wide
  | .float, 16 => simd_type m .int 16
  | .int, 16 => simd_type m .float 16
  -- primary template
  | _, _ => .undefined_type

/-- Embeds `half_simd_type<T, W>::type`.  The local names stand for
`half_simd_type<float, 8>::type` and `half_simd_type<float, 16>::type`, which
the `bool32_t` specialisations alias. -/
def half_simd_type (m : Macros) (T : CType) (W : Int) : CType :=
  let half_float_8 : CType :=
    if m.__AVX512F__ || m.__AVX2__ || m.__AVX__ then .__m128 else .array .float 4
  let half_float_16 : CType :=
    if m.__AVX512F__ then .__m256 else .array .float 8
  match T, W with
  -- 1-wide
  | .int, 1 => .short
  -- 4-wide
  | .float, 4 => .array .float 2
  | .int, 4 => .array .int 2
  -- 8-wide
  | .float, 8 => half_float_8
  | .int, 8 =>
      if m.__AVX512F__ || m.__AVX2__ || m.__AVX__ then .__m128i else .array .int 4
  | .bool32_t, 8 => half_float_8
  -- 16-wide
  | .float, 16 => half_float_16
  | .int, 16 => if m.__AVX512F__ then .__m256i else .array .int 8
  | .bool32_t, 16 => half_float_16
  -- primary template
  | _, _ => .undefined_type

/-- Embeds `bool_type_for<T>::type`. -/
def bool_type_for (T : CType) : CType :=
  match T with
  -- 32-bit
  | .float => .bool32_t
  | .int => .bool32_t
  | .bool32_t => .bool32_t
  -- 64-bit
  | .double => .bool64_t
  | .long_long => .bool64_t
  | .bool64_t => .bool64_t
  -- primary template
  | _ => .undefined_type

/-! ## The vocabulary of the specification -/

/-- The six element kinds of the specification; they are the six types
accepted by `valid_type_for_pack`. -/
inductive ElementKind where
  | Float32
  | Int32
  | Bool32
  | Float64
  | Int64
  | Bool64
deriving DecidableEq, Repr

/-- The C++ type an element kind stands for, in the order of
`valid_type_for_pack`. -/
def ElementKind.ctype : ElementKind → CType
  | .Float32 => .float
  | .Int32 => .int
  | .Bool32 => .bool32_t
  | .Float64 => .double
  | .Int64 => .long_long
  | .Bool64 => .bool64_t

/-- The capability levels of a build, lowest first. -/
inductive FeatureSet where
  | None
  | SSE
  | AVX
  | AVX2
  | AVX512F
deriving DecidableEq, Repr

/-- Modelled from the spec: the macros a build at a given capability level
defines.  The header only tests the macros; which of them the compiler
predefines is fixed by the build configuration, which is not part of the
header.  The specification orders the levels `None < SSE < AVX < AVX2 <
AVX512F` and lets every level define the macros of all lower levels. -/
def FeatureSet.macros : FeatureSet → Macros
  | .None => ⟨false, false, false, false⟩
  | .SSE => ⟨true, false, false, false⟩
  | .AVX => ⟨true, true, false, false⟩
  | .AVX2 => ⟨true, true, true, false⟩
  | .AVX512F => ⟨true, true, true, true⟩

/-- The Storage Resolver: `simd_type<T, W>::type` for the kind's type under
the macros of the active feature set. -/
def resolveStorage (f : FeatureSet) (kind : ElementKind) (width : Int) : CType :=
  simd_type f.macros kind.ctype width

/-- The Cast Resolver: `cast_simd_type<T, W>::type`. -/
def resolveCastPartner (f : FeatureSet) (kind : ElementKind) (width : Int) : CType :=
  cast_simd_type f.macros kind.ctype width

/-- The Half-Width Resolver: `half_simd_type<T, W>::type`. -/
def resolveHalf (f : FeatureSet) (kind : ElementKind) (width : Int) : CType :=
  half_simd_type f.macros kind.ctype width

/-- The Mask-Kind Resolver: `bool_type_for<T>::type`.  It takes no feature
set, as `bool_type_for` contains no preprocessor conditional. -/
def resolveMaskKind (kind : ElementKind) : CType :=
  bool_type_for kind.ctype

/-- The kind transformation the specification gives for the Cast Resolver:
`Float32 ↔ Int32`, `Float64 ↔ Int64`, and a mask kind goes to the integer kind
of its family. -/
def partnerKind : ElementKind → ElementKind
  | .Float32 => .Int32
  | .Int32 => .Float32
  | .Float64 => .Int64
  | .Int64 => .Float64
  | .Bool32 => .Int32
  | .Bool64 => .Int64

/-- A generic scalar-array fallback `T[N]`. -/
def CType.isArray : CType → Bool
  | .array _ _ => true
  | _ => false

/-- A dedicated hardware mask register type. -/
def CType.isMaskRegister : CType → Bool
  | .__mmask8 => true
  | .__mmask32 => true
  | _ => false

/-- A hardware vector register type. -/
def CType.isVectorRegister : CType → Bool
  | .__m128 => true
  | .__m128i => true
  | .__m256 => true
  | .__m256d => true
  | .__m256i => true
  | .__m512 => true
  | .__m512i => true
  | _ => false

/-- A hardware register type of either sort, vector or mask. -/
def CType.isHardware (t : CType) : Bool :=
  t.isVectorRegister || t.isMaskRegister

/-- The bit width an x86 vector register type carries in its name
(`__m128*`, `__m256*`, `__m512*`); 0 for every other type. -/
def CType.registerBits : CType → Nat
  | .__m128 => 128
  | .__m128i => 128
  | .__m256 => 256
  | .__m256d => 256
  | .__m256i => 256
  | .__m512 => 512
  | .__m512i => 512
  | _ => 0

/-- The number of bits an x86 mask register type carries in its name
(`__mmask8`, `__mmask32`); 0 for every other type. -/
def CType.maskBits : CType → Nat
  | .__mmask8 => 8
  | .__mmask32 => 32
  | _ => 0

/-- The numeric families of the x86 vector register types. -/
inductive NumericFamily where
  | single
  | double
  | integer
deriving DecidableEq, Repr

/-- The numeric family an x86 vector register type carries in its name: no
suffix for single precision, `d` for double precision, `i` for integers. -/
def CType.registerFamily : CType → Option NumericFamily
  | .__m128 => some .single
  | .__m256 => some .single
  | .__m512 => some .single
  | .__m256d => some .double
  | .__m128i => some .integer
  | .__m256i => some .integer
  | .__m512i => some .integer
  | _ => none

/-- The lane size in bits of an element kind: 32 for the 32-bit family, 64 for
the 64-bit family. -/
def ElementKind.laneBits : ElementKind → Nat
  | .Float32 => 32
  | .Int32 => 32
  | .Bool32 => 32
  | .Float64 => 64
  | .Int64 => 64
  | .Bool64 => 64

/-- Modelled from the spec: the total size in bits of a type.  The header
does not state the sizes of the scalar types; the specification names the
kinds by them (`Float32`, `Int32`, `Bool32` are 32-bit, `Float64`, `Int64`,
`Bool64` are 64-bit), which are the sizes of `float`, `int`, `double` and
`long long` on the x86 targets the register types belong to.  An array `T[N]`
has `N` times the bits of `T`, a vector or mask register the bits in its
name, and the sentinel `undefined_type` none. -/
def CType.totalBits : CType → Nat
  | .undefined_type => 0
  | .float => 32
  | .int => 32
  | .bool32_t => 32
  | .double => 64
  | .long_long => 64
  | .bool64_t => 64
  | .short => 16
  | .array elem n => n * elem.totalBits
  | .__m128 => 128
  | .__m128i => 128
  | .__m256 => 256
  | .__m256d => 256
  | .__m256i => 256
  | .__m512 => 512
  | .__m512i => 512
  | .__mmask8 => 8
  | .__mmask32 => 32

/-- The position of a capability level in the order
`None < SSE < AVX < AVX2 < AVX512F`. -/
def FeatureSet.level : FeatureSet → Nat
  | .None => 0
  | .SSE => 1
  | .AVX => 2
  | .AVX2 => 3
  | .AVX512F => 4

/-! ## Sanity checks of the embedding on concrete inputs -/

example : resolveStorage .SSE .Float32 4 = .__m128 := by decide
example : resolveStorage .None .Float32 4 = .array .float 4 := by decide
example : resolveStorage .AVX .Int64 4 = .array .long_long 4 := by decide
example : resolveStorage .AVX .Float64 4 = .__m256d := by decide
example : resolveStorage .AVX512F .Bool32 16 = .__mmask32 := by decide
example : resolveHalf .AVX2 .Int32 8 = .__m128i := by decide
example : resolveCastPartner .AVX .Bool32 4 = .__m128i := by decide
example : simd_type FeatureSet.AVX.macros .float (-4) = .undefined_type := by decide
example : valid_type_for_pack .short = false := by decide
example : CType.totalBits (.array .long_long 4) = 256 := by decide
example : CType.totalBits (.array .float 16) = CType.totalBits .__m512 := by decide

/-! ## Storage Resolver -/

/-- C1, as stated, fails: `simd_type<double, 8>` has no specialisation, so
`resolveStorage(Float64, 8)` is the `undefined_type` sentinel of the primary
template although `Float64` is one of the six kinds and 8 one of the four
widths. -/
theorem resolveStorage_Float64_8_undefined :
    resolveStorage .None .Float64 8 = .undefined_type := by
  decide

/-- C1, amended: for every kind of the 32-bit family at every width in
`{1, 4, 8, 16}`, and for every kind at width 1 or 4, `resolveStorage` is
defined (not `undefined_type`) under every feature set. -/
theorem resolveStorage_defined_of_supported (kind : ElementKind) (w : Int)
    (f : FeatureSet) (hw : w = 1 ∨ w = 4 ∨ w = 8 ∨ w = 16)
    (hs : (kind = .Float32 ∨ kind = .Int32 ∨ kind = .Bool32) ∨ w = 1 ∨ w = 4) :
    resolveStorage f kind w ≠ .undefined_type := by
  rcases hw with rfl | rfl | rfl | rfl <;> cases kind <;> cases f <;>
    first
      | decide
      | (exfalso; revert hs; decide)

/-- Witness for `resolveStorage_defined_of_supported`: `Bool32` at width 16
under `AVX2`. -/
theorem resolveStorage_defined_of_supported_witness :
    ((ElementKind.Bool32 = .Float32 ∨ ElementKind.Bool32 = .Int32 ∨
        ElementKind.Bool32 = .Bool32) ∨ (16 : Int) = 1 ∨ (16 : Int) = 4) ∧
    resolveStorage .AVX2 .Bool32 16 ≠ .undefined_type :=
  ⟨by decide,
    resolveStorage_defined_of_supported .Bool32 16 .AVX2 (by decide) (by decide)⟩

/-- C2, as stated, fails: at width 1 the kind `Bool32` does not resolve to its
own scalar type `bool32_t` but to `float`. -/
theorem resolveStorage_Bool32_1_not_own_scalar :
    resolveStorage .None .Bool32 1 = .float ∧
    resolveStorage .None .Bool32 1 ≠ ElementKind.ctype .Bool32 := by
  decide

/-- C2, amended: under every feature set, width 1 resolves to `float` for
`Float32`, `int` for `Int32`, `double` for `Float64`, `long long` for `Int64`,
and for a boolean kind to the scalar of its paired floating kind: `float` for
`Bool32`, `double` for `Bool64`; the result is the same under every feature
set. -/
theorem resolveStorage_width_one (f : FeatureSet) :
    resolveStorage f .Float32 1 = .float ∧
    resolveStorage f .Int32 1 = .int ∧
    resolveStorage f .Float64 1 = .double ∧
    resolveStorage f .Int64 1 = .long_long ∧
    resolveStorage f .Bool32 1 = .float ∧
    resolveStorage f .Bool64 1 = .double ∧
    ∀ (kind : ElementKind) (g : FeatureSet),
      resolveStorage f kind 1 = resolveStorage g kind 1 := by
  refine ⟨?_, ?_, ?_, ?_, ?_, ?_, ?_⟩
  · cases f <;> decide
  · cases f <;> decide
  · cases f <;> decide
  · cases f <;> decide
  · cases f <;> decide
  · cases f <;> decide
  · intro kind g
    cases kind <;> cases f <;> cases g <;> decide

/-- The boolean specialisations next to `simd_type<bool32_t, 16>`: at widths
1, 4 and 8 `Bool32` resolves to the storage of `Float32`, and at every width
`Bool64` resolves to the storage of `Float64`. -/
theorem resolveStorage_bool_aliases_float (f : FeatureSet) :
    resolveStorage f .Bool32 1 = resolveStorage f .Float32 1 ∧
    resolveStorage f .Bool32 4 = resolveStorage f .Float32 4 ∧
    resolveStorage f .Bool32 8 = resolveStorage f .Float32 8 ∧
    resolveStorage f .Bool64 1 = resolveStorage f .Float64 1 ∧
    resolveStorage f .Bool64 4 = resolveStorage f .Float64 4 ∧
    resolveStorage f .Bool64 8 = resolveStorage f .Float64 8 ∧
    resolveStorage f .Bool64 16 = resolveStorage f .Float64 16 := by
  cases f <;> decide

/-- C3, evaluated where the code departs from it: without `__AVX512F__` the
16-wide `Bool32` storage is `int[16]`, which is not a mask register type and
is not the 16-wide `Float32` storage `float[16]`. -/
theorem resolveStorage_Bool32_16_fallback_differs :
    resolveStorage .None .Bool32 16 = .array .int 16 ∧
    resolveStorage .None .Float32 16 = .array .float 16 ∧
    CType.isMaskRegister (resolveStorage .None .Bool32 16) = false ∧
    resolveStorage .None .Bool32 16 ≠ resolveStorage .None .Float32 16 := by
  decide

/-! ## Cast Resolver -/

/-- C4: wherever `resolveCastPartner(kind, width)` is defined, it is the
storage of the partner kind at the same width. -/
theorem resolveCastPartner_eq_storage_of_partner (kind : ElementKind) (w : Int)
    (f : FeatureSet) (hw : w = 1 ∨ w = 4 ∨ w = 8 ∨ w = 16)
    (hd : resolveCastPartner f kind w ≠ .undefined_type) :
    resolveCastPartner f kind w = resolveStorage f (partnerKind kind) w := by
  rcases hw with rfl | rfl | rfl | rfl <;> cases kind <;> cases f <;>
    first
      | decide
      | (exfalso; revert hd; decide)

/-- Witness for `resolveCastPartner_eq_storage_of_partner`: `Bool32` at width
4 under `SSE`. -/
theorem resolveCastPartner_eq_storage_of_partner_witness :
    resolveCastPartner .SSE .Bool32 4 ≠ .undefined_type ∧
    resolveCastPartner .SSE .Bool32 4 = resolveStorage .SSE (partnerKind .Bool32) 4 :=
  ⟨by decide,
    resolveCastPartner_eq_storage_of_partner .Bool32 4 .SSE (by decide) (by decide)⟩

/-- The cast resolver is defined at no width other than 1, 4, 8 and 16. -/
theorem cast_simd_type_defined_width (m : Macros) (T : CType) (W : Int)
    (hd : cast_simd_type m T W ≠ .undefined_type) :
    W = 1 ∨ W = 4 ∨ W = 8 ∨ W = 16 := by
  unfold cast_simd_type at hd
  split at hd <;> simp_all

/-- C5: for every kind, width and feature set at which
`resolveCastPartner(kind, width)` is defined, the cast partner of the partner
kind is defined too and is the storage of the original kind. -/
theorem resolveCastPartner_involutive (kind : ElementKind) (w : Int)
    (f : FeatureSet) (hd : resolveCastPartner f kind w ≠ .undefined_type) :
    resolveCastPartner f (partnerKind kind) w ≠ .undefined_type ∧
    resolveCastPartner f (partnerKind kind) w = resolveStorage f kind w := by
  have hw := cast_simd_type_defined_width f.macros kind.ctype w hd
  rcases hw with rfl | rfl | rfl | rfl <;> cases kind <;> cases f <;>
    first
      | decide
      | (exfalso; revert hd; decide)

/-- Witness for `resolveCastPartner_involutive`: `Float32` at width 8 under
`AVX`. -/
theorem resolveCastPartner_involutive_witness :
    resolveCastPartner .AVX .Float32 8 ≠ .undefined_type ∧
    resolveCastPartner .AVX (partnerKind .Float32) 8 ≠ .undefined_type ∧
    resolveCastPartner .AVX (partnerKind .Float32) 8 = resolveStorage .AVX .Float32 8 :=
  ⟨by decide, resolveCastPartner_involutive .Float32 8 .AVX (by decide)⟩

/-! ## Mask-Kind Resolver -/

/-- C6: `resolveMaskKind` is `Bool32` on `Float32`, `Int32`, `Bool32` and
`Bool64` on `Float64`, `Int64`, `Bool64`, and on no kind the `undefined_type`
sentinel; it has no feature-set argument. -/
theorem resolveMaskKind_total :
    resolveMaskKind .Float32 = ElementKind.ctype .Bool32 ∧
    resolveMaskKind .Int32 = ElementKind.ctype .Bool32 ∧
    resolveMaskKind .Bool32 = ElementKind.ctype .Bool32 ∧
    resolveMaskKind .Float64 = ElementKind.ctype .Bool64 ∧
    resolveMaskKind .Int64 = ElementKind.ctype .Bool64 ∧
    resolveMaskKind .Bool64 = ElementKind.ctype .Bool64 ∧
    ∀ kind : ElementKind, resolveMaskKind kind ≠ .undefined_type := by
  refine ⟨rfl, rfl, rfl, rfl, rfl, rfl, ?_⟩
  intro kind
  cases kind <;> decide

/-- C7: applying `bool_type_for` to the result of `resolveMaskKind` gives the
same result again, and the result is one of the two mask types, of which
`is_bool` holds. -/
theorem resolveMaskKind_idempotent (kind : ElementKind) :
    bool_type_for (resolveMaskKind kind) = resolveMaskKind kind ∧
    (resolveMaskKind kind = ElementKind.ctype .Bool32 ∨
      resolveMaskKind kind = ElementKind.ctype .Bool64) ∧
    is_bool (resolveMaskKind kind) = true := by
  cases kind <;> decide

/-! ## Half-Width Resolver -/

/-- C8, as stated, fails: under `SSE` the half of the 8-wide `Float32` vector
is defined and is the fallback `float[4]`, while the 4-wide `Float32` storage
is the register `__m128`. -/
theorem resolveHalf_Float32_8_SSE_ne_storage :
    resolveHalf .SSE .Float32 8 ≠ .undefined_type ∧
    resolveHalf .SSE .Float32 8 = .array .float 4 ∧
    resolveStorage .SSE .Float32 (8 / 2) = .__m128 ∧
    resolveHalf .SSE .Float32 8 ≠ resolveStorage .SSE .Float32 (8 / 2) := by
  decide

/-- C8, amended: for every kind, width `w` in `{8, 16}` and feature set at
which `resolveHalf(kind, w)` is defined, `resolveHalf(kind, w)` equals
`resolveStorage(kind, w / 2)` exactly when the feature set is not one at which
the half-width storage is already a register while the full-width storage is
still an array, that is, except at `w = 8` under `SSE` and at `w = 16` under
`AVX` or `AVX2`. -/
theorem resolveHalf_eq_storage_half_iff (kind : ElementKind) (w : Int)
    (f : FeatureSet) (hw : w = 8 ∨ w = 16)
    (hd : resolveHalf f kind w ≠ .undefined_type) :
    resolveHalf f kind w = resolveStorage f kind (w / 2) ↔
      ¬ (w = 8 ∧ f = .SSE) ∧ ¬ (w = 16 ∧ (f = .AVX ∨ f = .AVX2)) := by
  rcases hw with rfl | rfl <;> cases kind <;> cases f <;>
    first
      | decide
      | (exfalso; revert hd; decide)

/-- Witness for `resolveHalf_eq_storage_half_iff`: `Int32` at width 16 under
`AVX512F`. -/
theorem resolveHalf_eq_storage_half_iff_witness :
    resolveHalf .AVX512F .Int32 16 ≠ .undefined_type ∧
    (resolveHalf .AVX512F .Int32 16 = resolveStorage .AVX512F .Int32 (16 / 2) ↔
      ¬ ((16 : Int) = 8 ∧ FeatureSet.AVX512F = .SSE) ∧
      ¬ ((16 : Int) = 16 ∧ (FeatureSet.AVX512F = .AVX ∨ FeatureSet.AVX512F = .AVX2))) :=
  ⟨by decide, resolveHalf_eq_storage_half_iff .Int32 16 .AVX512F (by decide) (by decide)⟩

/-- C9, as stated, fails: `half_simd_type<int, 1>` is specialised, so
`resolveHalf(Int32, 1)` is the concrete type `short`, not the sentinel. -/
theorem resolveHalf_Int32_1_short :
    resolveHalf .None .Int32 1 = .short ∧
    resolveHalf .None .Int32 1 ≠ .undefined_type := by
  decide

/-- C9, amended: under every feature set `resolveHalf(kind, 1)` is the
`undefined_type` sentinel for every kind other than `Int32`, and is `short`
for `Int32`. -/
theorem resolveHalf_width_one (kind : ElementKind) (f : FeatureSet) :
    resolveHalf f kind 1 = if kind = .Int32 then .short else .undefined_type := by
  cases kind <;> cases f <;> decide

/-- C10: whenever `resolveHalf(kind, w)` for `w` in `{4, 8, 16}` and
`resolveStorage(kind, w / 2)` are both scalar arrays, they are the same array
type, of `w / 2` elements. -/
theorem resolveHalf_fallback_eq_storage_fallback (kind : ElementKind) (w : Int)
    (f : FeatureSet) (hw : w = 4 ∨ w = 8 ∨ w = 16)
    (hh : CType.isArray (resolveHalf f kind w) = true)
    (hs : CType.isArray (resolveStorage f kind (w / 2)) = true) :
    resolveHalf f kind w = resolveStorage f kind (w / 2) ∧
    ∃ elem : CType, resolveHalf f kind w = .array elem (w / 2).toNat ∧
      resolveStorage f kind (w / 2) = .array elem (w / 2).toNat := by
  rcases hw with rfl | rfl | rfl <;> cases kind <;> cases f <;>
    first
      | (exfalso; revert hh; decide)
      | (exfalso; revert hs; decide)
      | exact ⟨by decide, .float, by decide, by decide⟩
      | exact ⟨by decide, .int, by decide, by decide⟩

/-- Witness for `resolveHalf_fallback_eq_storage_fallback`: `Bool32` at width
16 under `SSE`, where both sides are `float[8]`. -/
theorem resolveHalf_fallback_eq_storage_fallback_witness :
    CType.isArray (resolveHalf .SSE .Bool32 16) = true ∧
    CType.isArray (resolveStorage .SSE .Bool32 (16 / 2)) = true ∧
    resolveHalf .SSE .Bool32 16 = resolveStorage .SSE .Bool32 (16 / 2) ∧
    ∃ elem : CType, resolveHalf .SSE .Bool32 16 = .array elem ((16 : Int) / 2).toNat ∧
      resolveStorage .SSE .Bool32 (16 / 2) = .array elem ((16 : Int) / 2).toNat :=
  ⟨by decide, by decide,
    resolveHalf_fallback_eq_storage_fallback .Bool32 16 .SSE (by decide) (by decide)
      (by decide)⟩

/-! ## Scenarios at the lowest and the highest feature set -/

/-- C11: with no vector-extension macro defined, wherever `resolveStorage` is
defined at a width in `{4, 8, 16}` the result is no hardware register but a
scalar array of exactly `width` elements; `Float32` at width 8 is `float[8]`
and at width 16 is `float[16]`. -/
theorem resolveStorage_None_is_fallback :
    (∀ (kind : ElementKind) (w : Int), (w = 4 ∨ w = 8 ∨ w = 16) →
      resolveStorage .None kind w ≠ .undefined_type →
        CType.isHardware (resolveStorage .None kind w) = false ∧
        ∃ elem : CType, resolveStorage .None kind w = .array elem w.toNat) ∧
    resolveStorage .None .Float32 8 = .array .float 8 ∧
    resolveStorage .None .Float32 16 = .array .float 16 := by
  refine ⟨?_, by decide, by decide⟩
  intro kind w hw hd
  rcases hw with rfl | rfl | rfl <;> cases kind <;>
    first
      | (exfalso; revert hd; decide)
      | exact ⟨by decide, .float, by decide⟩
      | exact ⟨by decide, .int, by decide⟩
      | exact ⟨by decide, .double, by decide⟩
      | exact ⟨by decide, .long_long, by decide⟩

/-- Witness for `resolveStorage_None_is_fallback`: `Int64` at width 4. -/
theorem resolveStorage_None_is_fallback_witness :
    resolveStorage .None .Int64 4 ≠ .undefined_type ∧
    CType.isHardware (resolveStorage .None .Int64 4) = false ∧
    ∃ elem : CType, resolveStorage .None .Int64 4 = .array elem (4 : Int).toNat :=
  ⟨by decide, resolveStorage_None_is_fallback.1 .Int64 4 (by decide) (by decide)⟩

/-- C12: under `AVX512F` the 16-wide `Int32` storage is `__m512i` and its half
is `__m256i`; the 16-wide `Float32` storage is `__m512` and its half is
`__m256`; none of them is a fallback array. -/
theorem resolve_16_wide_AVX512F :
    resolveStorage .AVX512F .Int32 16 = .__m512i ∧
    resolveHalf .AVX512F .Int32 16 = .__m256i ∧
    resolveStorage .AVX512F .Float32 16 = .__m512 ∧
    resolveHalf .AVX512F .Float32 16 = .__m256 ∧
    CType.isArray (resolveStorage .AVX512F .Int32 16) = false ∧
    CType.isArray (resolveHalf .AVX512F .Int32 16) = false ∧
    CType.isArray (resolveStorage .AVX512F .Float32 16) = false ∧
    CType.isArray (resolveHalf .AVX512F .Float32 16) = false := by
  decide

/-! ## Support boundaries -/

/-- The storage resolver is defined at no width other than 1, 4, 8 and 16. -/
theorem simd_type_defined_width (m : Macros) (T : CType) (W : Int)
    (hd : simd_type m T W ≠ .undefined_type) :
    W = 1 ∨ W = 4 ∨ W = 8 ∨ W = 16 := by
  unfold simd_type at hd
  simp only [] at hd
  split at hd <;> simp_all

/-- The half-width resolver is defined at no width other than 1, 4, 8 and
16. -/
theorem half_simd_type_defined_width (m : Macros) (T : CType) (W : Int)
    (hd : half_simd_type m T W ≠ .undefined_type) :
    W = 1 ∨ W = 4 ∨ W = 8 ∨ W = 16 := by
  unfold half_simd_type at hd
  simp only [] at hd
  split at hd <;> simp_all

/-- C15: under every feature set and at every width, `resolveCastPartner` is
defined exactly for `Float32` and `Int32` at widths 1, 4, 8, 16, for `Float64`
and `Int64` at width 1, and for `Bool32` at width 4; a kind of the 64-bit
family has no cast partner at width 8 or 16. -/
theorem resolveCastPartner_defined_iff (kind : ElementKind) (w : Int)
    (f : FeatureSet) :
    (resolveCastPartner f kind w ≠ .undefined_type ↔
      ((kind = .Float32 ∨ kind = .Int32) ∧ (w = 1 ∨ w = 4 ∨ w = 8 ∨ w = 16)) ∨
      ((kind = .Float64 ∨ kind = .Int64) ∧ w = 1) ∨
      (kind = .Bool32 ∧ w = 4)) ∧
    ((kind = .Float64 ∨ kind = .Int64 ∨ kind = .Bool64) → (w = 8 ∨ w = 16) →
      resolveCastPartner f kind w = .undefined_type) := by
  refine ⟨⟨?_, ?_⟩, ?_⟩
  · intro hd
    have hw := cast_simd_type_defined_width f.macros kind.ctype w hd
    rcases hw with rfl | rfl | rfl | rfl <;> cases kind <;> cases f <;>
      first
        | decide
        | (exfalso; revert hd; decide)
  · intro h
    have hw : w = 1 ∨ w = 4 ∨ w = 8 ∨ w = 16 := by
      rcases h with ⟨_, h⟩ | ⟨_, h⟩ | ⟨_, h⟩
      · exact h
      · exact Or.inl h
      · exact Or.inr (Or.inl h)
    rcases hw with rfl | rfl | rfl | rfl <;> cases kind <;> cases f <;>
      first
        | decide
        | (exfalso; revert h; decide)
  · intro hk hw
    rcases hw with rfl | rfl <;> cases kind <;> cases f <;>
      first
        | decide
        | (exfalso; revert hk; decide)

/-- Witness for `resolveCastPartner_defined_iff`: `Int64` at width 8 under
`AVX2` has no cast partner. -/
theorem resolveCastPartner_defined_iff_witness :
    resolveCastPartner .AVX2 .Int64 8 = .undefined_type :=
  (resolveCastPartner_defined_iff .Int64 8 .AVX2).2 (by decide) (by decide)

/-- C19: under every feature set, at a width in `{1, 4, 8, 16}`
`resolveStorage` is defined exactly when the kind is of the 32-bit family or
the width is 1 or 4; a kind of the 64-bit family at width 8 or 16 resolves to
`undefined_type`. -/
theorem resolveStorage_defined_iff (kind : ElementKind) (w : Int)
    (f : FeatureSet) (hw : w = 1 ∨ w = 4 ∨ w = 8 ∨ w = 16) :
    (resolveStorage f kind w ≠ .undefined_type ↔
      (kind = .Float32 ∨ kind = .Int32 ∨ kind = .Bool32) ∨ w = 1 ∨ w = 4) ∧
    ((kind = .Float64 ∨ kind = .Int64 ∨ kind = .Bool64) → (w = 8 ∨ w = 16) →
      resolveStorage f kind w = .undefined_type) := by
  rcases hw with rfl | rfl | rfl | rfl <;> cases kind <;> cases f <;> decide

/-- Witness for `resolveStorage_defined_iff`: `Bool64` at width 16 under
`AVX512F`. -/
theorem resolveStorage_defined_iff_witness :
    (resolveStorage .AVX512F .Bool64 16 ≠ .undefined_type ↔
      (ElementKind.Bool64 = .Float32 ∨ ElementKind.Bool64 = .Int32 ∨
        ElementKind.Bool64 = .Bool32) ∨ (16 : Int) = 1 ∨ (16 : Int) = 4) ∧
    ((ElementKind.Bool64 = .Float64 ∨ ElementKind.Bool64 = .Int64 ∨
        ElementKind.Bool64 = .Bool64) → ((16 : Int) = 8 ∨ (16 : Int) = 16) →
      resolveStorage .AVX512F .Bool64 16 = .undefined_type) :=
  resolveStorage_defined_iff .Bool64 16 .AVX512F (by decide)

/-! ## Mask kinds in the half-width resolution -/

/-- C13, as stated, fails: `half_simd_type` has no specialisation for
`bool32_t` at width 4, so the half of the 4-wide `Bool32` is `undefined_type`
while the half of the 4-wide `Float32` is `float[2]`. -/
theorem resolveHalf_Bool32_4_undefined :
    resolveHalf .None .Bool32 4 = .undefined_type ∧
    resolveHalf .None .Float32 4 = .array .float 2 ∧
    resolveHalf .None .Bool32 4 ≠ resolveHalf .None .Float32 4 := by
  decide

/-- C13, amended: under every feature set the half of `Bool32` is the half of
`Float32` at widths 8 and 16, and is `undefined_type` at width 4; the half of
`Bool64` is the half of `Float64` at every width in `{4, 8, 16}`. -/
theorem resolveHalf_bool_aliases_float (f : FeatureSet) :
    resolveHalf f .Bool32 8 = resolveHalf f .Float32 8 ∧
    resolveHalf f .Bool32 16 = resolveHalf f .Float32 16 ∧
    resolveHalf f .Bool32 4 = .undefined_type ∧
    resolveHalf f .Bool64 4 = resolveHalf f .Float64 4 ∧
    resolveHalf f .Bool64 8 = resolveHalf f .Float64 8 ∧
    resolveHalf f .Bool64 16 = resolveHalf f .Float64 16 := by
  cases f <;> decide

/-! ## Monotonicity in the feature set -/

/-- C14: a hardware register chosen by `resolveStorage` under a feature set is
chosen under every higher feature set as well, and whether `resolveStorage`,
`resolveCastPartner` or `resolveHalf` is `undefined_type` at a kind and width
is the same under any two feature sets. -/
theorem resolution_monotone :
    (∀ (kind : ElementKind) (w : Int) (f g : FeatureSet), f.level ≤ g.level →
      CType.isHardware (resolveStorage f kind w) = true →
        resolveStorage g kind w = resolveStorage f kind w) ∧
    (∀ (kind : ElementKind) (w : Int) (f g : FeatureSet),
      (resolveStorage f kind w = .undefined_type ↔
        resolveStorage g kind w = .undefined_type) ∧
      (resolveCastPartner f kind w = .undefined_type ↔
        resolveCastPartner g kind w = .undefined_type) ∧
      (resolveHalf f kind w = .undefined_type ↔
        resolveHalf g kind w = .undefined_type)) := by
  constructor
  · intro kind w f g hle hh
    have hd : simd_type f.macros kind.ctype w ≠ .undefined_type := by
      intro h
      rw [resolveStorage, h] at hh
      revert hh
      decide
    have hw := simd_type_defined_width f.macros kind.ctype w hd
    rcases hw with rfl | rfl | rfl | rfl <;> cases kind <;> cases f <;> cases g <;>
      first
        | decide
        | (exfalso; revert hh; decide)
        | (exfalso; revert hle; decide)
  · intro kind w f g
    by_cases hw : w = 1 ∨ w = 4 ∨ w = 8 ∨ w = 16
    · rcases hw with rfl | rfl | rfl | rfl <;> cases kind <;> cases f <;> cases g <;>
        decide
    · have hs : ∀ h : FeatureSet, resolveStorage h kind w = .undefined_type := by
        intro h
        by_contra hd
        exact hw (simd_type_defined_width h.macros kind.ctype w hd)
      have hc : ∀ h : FeatureSet, resolveCastPartner h kind w = .undefined_type := by
        intro h
        by_contra hd
        exact hw (cast_simd_type_defined_width h.macros kind.ctype w hd)
      have hh : ∀ h : FeatureSet, resolveHalf h kind w = .undefined_type := by
        intro h
        by_contra hd
        exact hw (half_simd_type_defined_width h.macros kind.ctype w hd)
      simp [hs, hc, hh]

/-- Witness for `resolution_monotone`: the 8-wide `Int32` register chosen
under `AVX` is chosen under `AVX512F`. -/
theorem resolution_monotone_witness :
    FeatureSet.level .AVX ≤ FeatureSet.level .AVX512F ∧
    CType.isHardware (resolveStorage .AVX .Int32 8) = true ∧
    resolveStorage .AVX512F .Int32 8 = resolveStorage .AVX .Int32 8 :=
  ⟨by decide, by decide,
    resolution_monotone.1 .Int32 8 .AVX .AVX512F (by decide) (by decide)⟩

/-! ## Register classes -/

/-- C16: for `Float32` and `Int32`, the half at width 4 is the 2-element array
of the kind's scalar type; at width 8 or 16 the half is a vector register
exactly when the full-width storage is one, and then it is the register of the
same numeric family with half the bits, and otherwise it is the array of
`w / 2` scalars of the kind's scalar type. -/
theorem resolveHalf_tracks_full_width (kind : ElementKind) (f : FeatureSet)
    (hk : kind = .Float32 ∨ kind = .Int32) :
    resolveHalf f kind 4 = .array kind.ctype 2 ∧
    ∀ w : Int, (w = 8 ∨ w = 16) →
      (CType.isHardware (resolveHalf f kind w) =
        CType.isHardware (resolveStorage f kind w)) ∧
      (CType.isHardware (resolveStorage f kind w) = true →
        CType.isVectorRegister (resolveHalf f kind w) = true ∧
        CType.registerFamily (resolveHalf f kind w) =
          CType.registerFamily (resolveStorage f kind w) ∧
        2 * CType.registerBits (resolveHalf f kind w) =
          CType.registerBits (resolveStorage f kind w)) ∧
      (CType.isHardware (resolveStorage f kind w) = false →
        resolveHalf f kind w = .array kind.ctype (w / 2).toNat) := by
  rcases hk with rfl | rfl
  · refine ⟨by cases f <;> decide, ?_⟩
    intro w hw
    rcases hw with rfl | rfl <;> cases f <;> decide
  · refine ⟨by cases f <;> decide, ?_⟩
    intro w hw
    rcases hw with rfl | rfl <;> cases f <;> decide

/-- Witness for `resolveHalf_tracks_full_width`: `Int32` under `AVX2`, at
widths 4 and 8. -/
theorem resolveHalf_tracks_full_width_witness :
    resolveHalf .AVX2 .Int32 4 = .array .int 2 ∧
    CType.isHardware (resolveStorage .AVX2 .Int32 8) = true ∧
    CType.registerFamily (resolveHalf .AVX2 .Int32 8) = some .integer ∧
    2 * CType.registerBits (resolveHalf .AVX2 .Int32 8) = 256 :=
  have h := resolveHalf_tracks_full_width .Int32 .AVX2 (Or.inr rfl)
  have h8 := (h.2 8 (Or.inl rfl)).2.1 (by decide)
  ⟨h.1, by decide, h8.2.1.trans (by decide), h8.2.2.trans (by decide)⟩

/-- The lane-capacity invariant where it holds: wherever `resolveStorage` is
defined at a width in `{4, 8, 16}`, an array has exactly `width` elements and
a vector register has `width` times the kind's lane size bits. -/
theorem resolveStorage_lane_capacity (kind : ElementKind) (w : Int)
    (f : FeatureSet) (hw : w = 4 ∨ w = 8 ∨ w = 16) :
    (CType.isArray (resolveStorage f kind w) = true →
      ∃ elem : CType, resolveStorage f kind w = .array elem w.toNat) ∧
    (CType.isVectorRegister (resolveStorage f kind w) = true →
      CType.registerBits (resolveStorage f kind w) = w.toNat * kind.laneBits) := by
  rcases hw with rfl | rfl | rfl <;> cases kind <;> cases f <;>
    refine ⟨fun ha => ?_, ?_⟩ <;>
    first
      | decide
      | (exfalso; revert ha; decide)
      | exact ⟨.float, by decide⟩
      | exact ⟨.int, by decide⟩
      | exact ⟨.double, by decide⟩
      | exact ⟨.long_long, by decide⟩

/-- C17, evaluated where the code departs from it: under `AVX512F` the 16-wide
`Bool32` storage is the mask register `__mmask32`, which has 32 bits, not one
bit for each of the 16 lanes. -/
theorem resolveStorage_Bool32_16_mask_bits :
    resolveStorage .AVX512F .Bool32 16 = .__mmask32 ∧
    CType.isMaskRegister (resolveStorage .AVX512F .Bool32 16) = true ∧
    CType.maskBits (resolveStorage .AVX512F .Bool32 16) = 32 ∧
    CType.maskBits (resolveStorage .AVX512F .Bool32 16) ≠ (16 : Int).toNat := by
  decide

/-- C18, as stated, fails: under `AVX` the 4-wide `Float64` storage is the
register `__m256d` while the 4-wide `Int64` storage is the array
`long long[4]`, so one is a hardware register and the other is not; both are
256 bits in total. -/
theorem resolveStorage_Float64_Int64_4_AVX_differ :
    resolveStorage .AVX .Float64 4 = .__m256d ∧
    resolveStorage .AVX .Int64 4 = .array .long_long 4 ∧
    CType.isHardware (resolveStorage .AVX .Float64 4) = true ∧
    CType.isHardware (resolveStorage .AVX .Int64 4) = false ∧
    CType.totalBits (resolveStorage .AVX .Float64 4) = 256 ∧
    CType.totalBits (resolveStorage .AVX .Int64 4) = 256 := by
  decide

/-- C18, amended: at every width in `{1, 4, 8, 16}` and under every feature
set, the `Float32` storage is a hardware register exactly when the `Int32`
storage is, and the two have equal total bit width; the `Float64` and `Int64`
storages have equal total bit width too, and one is a hardware register
exactly when the other is, except at width 4 under `AVX`. -/
theorem resolveStorage_float_int_same_class (w : Int) (f : FeatureSet)
    (hw : w = 1 ∨ w = 4 ∨ w = 8 ∨ w = 16) :
    CType.isHardware (resolveStorage f .Float32 w) =
      CType.isHardware (resolveStorage f .Int32 w) ∧
    CType.totalBits (resolveStorage f .Float32 w) =
      CType.totalBits (resolveStorage f .Int32 w) ∧
    CType.totalBits (resolveStorage f .Float64 w) =
      CType.totalBits (resolveStorage f .Int64 w) ∧
    (CType.isHardware (resolveStorage f .Float64 w) =
        CType.isHardware (resolveStorage f .Int64 w) ↔
      ¬ (w = 4 ∧ f = .AVX)) := by
  rcases hw with rfl | rfl | rfl | rfl <;> cases f <;> decide

/-- Witness for `resolveStorage_float_int_same_class`: width 4 under `AVX`,
where the 32-bit pair are both registers and the 64-bit pair differ in class
but not in total bit width. -/
theorem resolveStorage_float_int_same_class_witness :
    CType.isHardware (resolveStorage .AVX .Float32 4) =
      CType.isHardware (resolveStorage .AVX .Int32 4) ∧
    CType.totalBits (resolveStorage .AVX .Float32 4) =
      CType.totalBits (resolveStorage .AVX .Int32 4) ∧
    CType.totalBits (resolveStorage .AVX .Float64 4) =
      CType.totalBits (resolveStorage .AVX .Int64 4) ∧
    (CType.isHardware (resolveStorage .AVX .Float64 4) =
        CType.isHardware (resolveStorage .AVX .Int64 4) ↔
      ¬ ((4 : Int) = 4 ∧ FeatureSet.AVX = .AVX)) :=
  resolveStorage_float_int_same_class 4 .AVX (by decide)

end traits
end tsimd
